import Mathlib

/-!
Verification of the Doorbell kiosk core (shift detection, kiosk keyboard
state machine, ring-event log, ring controller) against its specification.
The definitions below are shallow embeddings of the Python source in
`activate_this.py` (the authoritative draft; `almost.py` contains the same
`detect_shift` and `press_key` logic).
-/

namespace Doorbell

/-- Wall-clock time of day (hour, minute), embedding Python `datetime.time(h, m)`
as produced by `_t` (activate_this.py lines 36-38).  Python compares `time`
values lexicographically on (hour, minute). -/
structure Tod where
  hh : Nat
  mm : Nat
deriving DecidableEq, Repr

/-- Lexicographic `<=` on times of day, embedding Python `time` comparison. -/
def todLe (a b : Tod) : Bool :=
  decide (a.hh < b.hh ∨ (a.hh = b.hh ∧ a.mm ≤ b.mm))

/-- Lexicographic `<` on times of day, embedding Python `time` comparison. -/
def todLt (a b : Tod) : Bool :=
  decide (a.hh < b.hh ∨ (a.hh = b.hh ∧ a.mm < b.mm))

/-- One configured shift window: (name, start, end), as in `SHIFT_DEFS`
(activate_this.py lines 20-23), with the `HH:MM` strings already parsed
by `_t`. -/
abbrev ShiftDef := String × Tod × Tod

/-- The configured shift windows of activate_this.py lines 20-23:
Day = 06:00-17:00, Night = 17:30-04:00 (overnight, since end < start). -/
def SHIFT_DEFS : List ShiftDef :=
  [("Day", ⟨6, 0⟩, ⟨17, 0⟩), ("Night", ⟨17, 30⟩, ⟨4, 0⟩)]

/-- The loop body of `detect_shift` (activate_this.py lines 43-51),
parametrised by the configured window list it iterates over: a same-day
window (`start <= end`) matches when `start <= t < end`; an overnight
window (`end < start`) matches when `t >= start or t < end`; the first
match wins and an exhausted list yields "Unscheduled". -/
def detectShiftWith : List ShiftDef → Tod → String
  | [], _ => "Unscheduled"
  | (name, ts, te) :: rest, tnow =>
    if todLe ts te then
      if todLe ts tnow && todLt tnow te then name else detectShiftWith rest tnow
    else
      if todLe ts tnow || todLt tnow te then name else detectShiftWith rest tnow

/-- Embedding of `detect_shift` (activate_this.py lines 40-51) applied to the
time-of-day component of its argument, with the configured `SHIFT_DEFS`. -/
def detect_shift (tnow : Tod) : String :=
  detectShiftWith SHIFT_DEFS tnow

/-- The per-window match condition of the `detect_shift` loop, extracted as a
predicate: used to state that `detect_shift` returns the first matching
window in configuration order. -/
def windowMatches (w : ShiftDef) (tnow : Tod) : Bool :=
  if todLe w.2.1 w.2.2 then todLe w.2.1 tnow && todLt tnow w.2.2
  else todLe w.2.1 tnow || todLt tnow w.2.2

/-- Python `str.strip()` on the ASCII whitespace the kiosk can produce:
drop leading and trailing whitespace characters. -/
def pyStrip (s : String) : String :=
  ((s.toList.dropWhile Char.isWhitespace).reverse.dropWhile
    Char.isWhitespace).reverse.asString

/-- The four text fields of the kiosk form, embedding the session-state keys
`name_input`, `username_input`, `badge_input`, `note_input` targeted by
`ss.active_field` (activate_this.py lines 213-215). -/
inductive Field
  | nameF
  | usernameF
  | badgeF
  | noteF
deriving DecidableEq, Repr

/-- The kiosk session state driven by the on-screen keyboard
(activate_this.py lines 210-217): the four field values, the active target,
the caps and symbols modifiers, and the pending auto-ring flag
(`trigger_ring`). -/
structure Kiosk where
  name_input : String
  username_input : String
  badge_input : String
  note_input : String
  active_field : Field
  caps_on : Bool
  symbols_on : Bool
  trigger_ring : Bool
deriving DecidableEq, Repr

/-- Session-start state (activate_this.py lines 211-216): all fields empty,
keyboard targeting the badge field, both modifiers off, no pending ring. -/
def initKiosk : Kiosk :=
  { name_input := "", username_input := "", badge_input := "",
    note_input := "", active_field := Field.badgeF,
    caps_on := false, symbols_on := false, trigger_ring := false }

/-- Read `ss[target_key]` for a field key. -/
def getField (s : Kiosk) : Field → String
  | Field.nameF => s.name_input
  | Field.usernameF => s.username_input
  | Field.badgeF => s.badge_input
  | Field.noteF => s.note_input

/-- Write `ss[target_key] = v` for a field key. -/
def setField (s : Kiosk) (f : Field) (v : String) : Kiosk :=
  match f with
  | Field.nameF => { s with name_input := v }
  | Field.usernameF => { s with username_input := v }
  | Field.badgeF => { s with badge_input := v }
  | Field.noteF => { s with note_input := v }

/-- Key-press tokens handed to `press_key` (activate_this.py line 224):
the sentinel strings `<BACK>`, `<CLEAR>`, `<CAPS>`, `<SYM>` and literal
characters (SPACE is the literal character ' '). -/
inductive Key
  | char (c : Char)
  | back
  | clear
  | caps
  | sym
deriving DecidableEq, Repr

/-- The case fold applied to a literal key by `press_key`
(activate_this.py lines 248-249): outside the symbol layer an alphabetic
character is upper-cased when caps is on and lower-cased otherwise; the
symbol layer passes the character through unchanged. -/
def foldChar (s : Kiosk) (c : Char) : Char :=
  if (!s.symbols_on) && c.isAlpha then
    (if s.caps_on then c.toUpper else c.toLower)
  else c

/-- Embedding of `press_key` (activate_this.py lines 235-250): CAPS and SYM
flip their modifier and return before any field is touched; BACK drops the
last character of the active field (`current[:-1]`); CLEAR empties it; a
literal character is case-folded by `foldChar` and appended. -/
def pressKey (s : Kiosk) (k : Key) : Kiosk :=
  match k with
  | Key.caps => { s with caps_on := !s.caps_on }
  | Key.sym => { s with symbols_on := !s.symbols_on }
  | Key.back =>
      setField s s.active_field ((getField s s.active_field).dropRight 1)
  | Key.clear => setField s s.active_field ""
  | Key.char c =>
      setField s s.active_field ((getField s s.active_field).push (foldChar s c))

/-- A sequence of key presses. -/
def runKeys (s : Kiosk) (ks : List Key) : Kiosk :=
  ks.foldl pressKey s

/-- Embedding of the badge widget's change callback `on_badge_scanned`
(activate_this.py lines 230-233): when the stripped badge value has length
at least 5, arm the pending auto-ring; otherwise leave the state alone. -/
def onBadgeScanned (s : Kiosk) : Kiosk :=
  if 5 ≤ (pyStrip s.badge_input).length then { s with trigger_ring := true }
  else s

/-- The scanner/typing path: the badge widget's value is set directly and its
change callback fires. -/
def scanBadge (s : Kiosk) (v : String) : Kiosk :=
  onBadgeScanned { s with badge_input := v }

/-- One persisted ring event, the row dict appended by the ring handler
(activate_this.py lines 371-379). -/
structure RingEvent where
  timestamp : String
  name : String
  username : String
  badge : String
  note : String
  shift : String
  photo : String
deriving DecidableEq, Repr

/-- Contents of the durable store (`doorbell_log.csv`): `none` when the file
does not exist; `some (Except.error m)` when it exists but `pd.read_csv`
raises; `some (Except.ok rows)` when it parses to a row list. -/
abbrev Store := Option (Except String (List RingEvent))

/-- The log's state: the durable store plus the `st.cache_data` read cache of
`load_log`, which holds the last materialised row list until it is cleared. -/
structure LogState where
  store : Store
  cache : Option (List RingEvent)

/-- The body of `load_log` (activate_this.py lines 69-80), i.e. the uncached
read path: a missing file yields the empty log, a file whose read raises is
caught and yields the empty log, and a parsed file yields its rows. -/
def readStore : Store → List RingEvent
  | none => []
  | some (Except.error _) => []
  | some (Except.ok rows) => rows

/-- A call to the cached `load_log`: a cache hit returns the cached snapshot
unchanged; a miss performs `readStore` and caches the result.  Returns the
materialised log together with the updated state. -/
def loadLog (s : LogState) : List RingEvent × LogState :=
  match s.cache with
  | some c => (c, s)
  | none =>
      let v := readStore s.store
      (v, { s with cache := some v })

/-- Embedding of `append_log` (activate_this.py lines 82-86): materialise the
current log through `load_log`, append the row, write the whole table back
to the store, and clear the read cache before returning. -/
def appendLog (s : LogState) (ev : RingEvent) : LogState :=
  let df := (loadLog s).1
  { store := some (Except.ok (df ++ [ev])), cache := none }

/-- Embedding of the admin "Reset log (start fresh)" action
(activate_this.py lines 429-432): when the store file exists it is removed
and the read cache cleared; when it does not exist nothing happens. -/
def clearLog (s : LogState) : LogState :=
  match s.store with
  | none => s
  | some _ => { store := none, cache := none }

/-- A fresh deployment: no store file, cold cache. -/
def initLog : LogState := { store := none, cache := none }

/-- Log operations other than clear, for stating that an appended event stays
visible to every later query with no intervening clear. -/
inductive LogOp
  | query
  | append (ev : RingEvent)

/-- Apply one log operation to the state. -/
def runLogOp (s : LogState) : LogOp → LogState
  | LogOp.query => (loadLog s).2
  | LogOp.append ev => appendLog s ev

/-- Apply a sequence of log operations. -/
def runLogOps (s : LogState) (ops : List LogOp) : LogState :=
  ops.foldl runLogOp s

/-- Cache coherence: the read cache is either cold or holds exactly the
current store contents.  This holds in every state reachable through the
log's own operations. -/
def CacheOk (s : LogState) : Prop :=
  s.cache = none ∨ s.cache = some (readStore s.store)

/-- Everything the ring handler (activate_this.py lines 343-382) reads when a
ring is attempted: the manual button, the pending auto-ring flag, the four
field values, the captured photo bytes (`None` or a byte string), the
`REQUIRE_PHOTO` configuration flag, the session's `effective_shift` value,
the current instant, its two formatted renderings, and whether the photo
file write succeeds. -/
structure RingCtx where
  ring_clicked : Bool
  trigger_ring : Bool
  name_input : String
  username_input : String
  badge_input : String
  note_input : String
  last_photo_bytes : Option (List Nat)
  require_photo : Bool
  effective_shift : Option String
  now : Tod
  ts_iso : String
  ts_compact : String
  photo_write_ok : Bool

/-- The entry condition `should_ring = ring_clicked or ss.get("trigger_ring",
False)` (activate_this.py line 343). -/
def shouldRing (ctx : RingCtx) : Bool :=
  ctx.ring_clicked || ctx.trigger_ring

/-- The validation predicate `missing_all` (activate_this.py line 346): all of
name, username and badge are empty after stripping. -/
def missingAll (ctx : RingCtx) : Bool :=
  (pyStrip ctx.name_input == "") && (pyStrip ctx.username_input == "")
    && (pyStrip ctx.badge_input == "")

/-- Python truthiness of `ss.get("last_photo_bytes")`: `None` and the empty
byte string are falsy. -/
def hasPhotoBytes : Option (List Nat) → Bool
  | none => false
  | some b => !b.isEmpty

/-- Python `a or b` on strings: the first operand unless it is empty. -/
def pyOrS (a b : String) : String :=
  if a == "" then b else a

/-- The photo-name sanitiser (activate_this.py line 358): keep alphanumeric,
'-' and '_' characters and truncate to 30. -/
def sanitizeIdent (s : String) : String :=
  ((s.toList.filter (fun c => c.isAlphanum || c == '-' || c == '_')).take
    30).asString

/-- The photo reference recorded by the ring handler (activate_this.py lines
355-366): empty when no photo bytes are present; the built path when the
write succeeds; reset to empty when the write raises (with a warning). -/
def photoPath (ctx : RingCtx) : String :=
  if hasPhotoBytes ctx.last_photo_bytes then
    if ctx.photo_write_ok then
      "photos/" ++ ctx.ts_compact ++ "_"
        ++ sanitizeIdent
            (pyOrS ctx.badge_input
              (pyOrS ctx.username_input (pyOrS ctx.name_input "visitor")))
        ++ ".jpg"
    else ""
  else ""

/-- Whether the ring surfaced a photo-save warning (the except branch of
activate_this.py lines 364-366). -/
def photoWarning (ctx : RingCtx) : Bool :=
  hasPhotoBytes ctx.last_photo_bytes && !ctx.photo_write_ok

/-- The row dict the ring handler appends (activate_this.py lines 371-379):
all four text fields stripped, the shift taken from
`ss.get("effective_shift", detect_shift())`, and the photo reference from
the photo-save step. -/
def mkEvent (ctx : RingCtx) : RingEvent :=
  { timestamp := ctx.ts_iso
    name := pyStrip ctx.name_input
    username := pyStrip ctx.username_input
    badge := pyStrip ctx.badge_input
    note := pyStrip ctx.note_input
    shift := ctx.effective_shift.getD (detect_shift ctx.now)
    photo := photoPath ctx }

/-- Outcome of one pass through the ring handler. -/
inductive RingOutcome
  | noRing
  | rejectedNoId
  | rejectedPhotoRequired
  | persisted (ev : RingEvent) (warning : Bool)
deriving DecidableEq, Repr

/-- Whether an outcome is the success (Persisted) outcome. -/
def isPersisted : RingOutcome → Bool
  | RingOutcome.persisted _ _ => true
  | _ => false

/-- Embedding of the ring handler (activate_this.py lines 343-382): when a
ring is requested, reject with "no identifying data" if all identifying
fields are blank, else reject with "photo required" if the configuration
demands a photo and none is present, else persist the event through
`append_log` — clearing `trigger_ring` only on this success path.  Returns
the outcome, the updated log state, and the updated `trigger_ring`. -/
def processRing (ctx : RingCtx) (log : LogState) :
    RingOutcome × LogState × Bool :=
  if shouldRing ctx then
    if missingAll ctx then
      (RingOutcome.rejectedNoId, log, ctx.trigger_ring)
    else if ctx.require_photo && !hasPhotoBytes ctx.last_photo_bytes then
      (RingOutcome.rejectedPhotoRequired, log, ctx.trigger_ring)
    else
      (RingOutcome.persisted (mkEvent ctx) (photoWarning ctx),
        appendLog log (mkEvent ctx), false)
  else
    (RingOutcome.noRing, log, ctx.trigger_ring)

/-- The admin sidebar's shift-mode selector (activate_this.py line 420). -/
inductive ShiftMode
  | auto
  | day
  | night
deriving DecidableEq, Repr

/-- Session initialisation of the effective shift:
`ss.setdefault("effective_shift", current_shift)` with
`current_shift = detect_shift()` evaluated at the session's first render
(activate_this.py lines 170 and 212). -/
def initEffectiveShift (t0 : Tod) : Option String :=
  some (detect_shift t0)

/-- One render of the admin sidebar (activate_this.py lines 419-421): only a
signed-in admin updates `effective_shift` — to `detect_shift` of the render
instant in Auto mode, or to the pinned "Day"/"Night" override; otherwise
the session value is left as it was. -/
def sidebarShift (isAdmin : Bool) (mode : ShiftMode) (t : Tod)
    (prev : Option String) : Option String :=
  if isAdmin then
    some (match mode with
      | ShiftMode.auto => detect_shift t
      | ShiftMode.day => "Day"
      | ShiftMode.night => "Night")
  else prev

/-- A kiosk state in the symbol layer, at session defaults otherwise. -/
def symKiosk : Kiosk := { initKiosk with symbols_on := true }

/-- A kiosk session after a completed 5-digit badge scan. -/
def kioskScanned : Kiosk := scanBadge initKiosk "12345"

/-- The same session after the on-screen CLEAR key empties the badge field
(the badge field is the default keyboard target). -/
def kioskCleared : Kiosk := pressKey kioskScanned Key.clear

/-- A ring context as the ring handler sees it, built from a kiosk session
with no manual button press, no photo, photo not required, and a fixed
noon session environment. -/
def ctxOfKiosk (k : Kiosk) : RingCtx :=
  { ring_clicked := false, trigger_ring := k.trigger_ring
    name_input := k.name_input, username_input := k.username_input
    badge_input := k.badge_input, note_input := k.note_input
    last_photo_bytes := none, require_photo := false
    effective_shift := initEffectiveShift ⟨12, 0⟩, now := ⟨12, 0⟩
    ts_iso := "2026-01-01T12:00:00", ts_compact := "20260101_120000"
    photo_write_ok := true }

/-- A manual ring request with every field blank and no photo. -/
def ctxEmptyRing : RingCtx :=
  { ring_clicked := true, trigger_ring := false
    name_input := "", username_input := "", badge_input := ""
    note_input := "", last_photo_bytes := none, require_photo := false
    effective_shift := none, now := ⟨12, 0⟩
    ts_iso := "2026-01-01T12:00:00", ts_compact := "20260101_120000"
    photo_write_ok := true }

/-- A manual ring request with a scanned badge and a captured photo whose
file write fails. -/
def ctxPhotoFail : RingCtx :=
  { ctxEmptyRing with
    badge_input := "12345"
    last_photo_bytes := some [1, 2, 3]
    photo_write_ok := false }

/-- A ring at 17:45 from a session whose effective shift was initialised at
16:00 and never touched by an administrator. -/
def ctxStaleShift : RingCtx :=
  { ctxEmptyRing with
    badge_input := "12345"
    effective_shift := initEffectiveShift ⟨16, 0⟩
    now := ⟨17, 45⟩
    ts_iso := "2026-01-01T17:45:00"
    ts_compact := "20260101_174500" }

/-- A sample ring event used to exercise the log contract. -/
def evSample : RingEvent :=
  { timestamp := "2026-01-01T12:00:00", name := "Jane Doe",
    username := "jdoe", badge := "12345", note := "", shift := "Day",
    photo := "" }

/-- A second, distinct sample ring event. -/
def evSample2 : RingEvent := { evSample with badge := "67890" }

/-- The recursive `detect_shift` loop equals a first-match search over the
window list. -/
theorem detectShiftWith_eq_find (defs : List ShiftDef) (t : Tod) :
    detectShiftWith defs t =
      ((defs.find? (fun w => windowMatches w t)).map (fun w => w.1)).getD
        "Unscheduled" := by
  induction defs with
  | nil => rfl
  | cons w rest ih =>
    obtain ⟨name, ts, te⟩ := w
    by_cases hse : todLe ts te = true
    · by_cases hm : (todLe ts t && todLt t te) = true
      · simp [detectShiftWith, hse, hm, List.find?, windowMatches]
      · simp [detectShiftWith, hse, hm, List.find?, windowMatches, ih]
    · by_cases hm : (todLe ts t || todLt t te) = true
      · simp [detectShiftWith, hse, hm, List.find?, windowMatches]
      · simp [detectShiftWith, hse, hm, List.find?, windowMatches, ih]

/-- C1: `detect_shift` returns the name of the first window in configuration
order whose half-open (possibly overnight-wrapping) interval contains the
time of day, and "Unscheduled" when no window matches — in particular on
the empty window list, never failing; with the configured
Day = [06:00,17:00) and Night = [17:30,04:00) windows it returns "Night"
at 23:00, 02:00 and 17:30 and "Unscheduled" at 04:00. -/
theorem detect_shift_first_match_spec :
    (∀ (defs : List ShiftDef) (t : Tod),
        detectShiftWith defs t =
          ((defs.find? (fun w => windowMatches w t)).map (fun w => w.1)).getD
            "Unscheduled")
    ∧ (∀ t : Tod, detectShiftWith [] t = "Unscheduled")
    ∧ detect_shift ⟨23, 0⟩ = "Night"
    ∧ detect_shift ⟨2, 0⟩ = "Night"
    ∧ detect_shift ⟨17, 30⟩ = "Night"
    ∧ detect_shift ⟨4, 0⟩ = "Unscheduled" := by
  refine ⟨detectShiftWith_eq_find, fun _ => rfl, ?_, ?_, ?_, ?_⟩ <;> decide

/-- Writing a field never touches the modifiers or the pending ring flag. -/
theorem setField_preserves_flags (s : Kiosk) (f : Field) (v : String) :
    (setField s f v).caps_on = s.caps_on
    ∧ (setField s f v).symbols_on = s.symbols_on
    ∧ (setField s f v).trigger_ring = s.trigger_ring
    ∧ (setField s f v).active_field = s.active_field := by
  cases f <;> exact ⟨rfl, rfl, rfl, rfl⟩

/-- C5: a literal key-press appends to the active field the character folded
per the layer rules — upper case when caps is on outside the symbol layer,
lower case when caps is off, unchanged in the symbol layer regardless of
caps; typing "a","b","c" on a fresh session yields "abc" in the badge
field, and after a CAPS-TOGGLE a further "d" yields "abcD". -/
theorem literal_key_append_spec :
    (∀ (s : Kiosk) (c : Char),
        pressKey s (Key.char c) =
          setField s s.active_field
            ((getField s s.active_field).push (foldChar s c)))
    ∧ (∀ (s : Kiosk) (c : Char) (b : Bool),
        foldChar { s with symbols_on := true, caps_on := b } c = c)
    ∧ (∀ (s : Kiosk) (c : Char),
        foldChar { s with symbols_on := false, caps_on := true } c =
          if c.isAlpha then c.toUpper else c)
    ∧ (∀ (s : Kiosk) (c : Char),
        foldChar { s with symbols_on := false, caps_on := false } c =
          if c.isAlpha then c.toLower else c)
    ∧ getField (runKeys initKiosk [Key.char 'a', Key.char 'b', Key.char 'c'])
        Field.badgeF = "abc"
    ∧ getField
        (runKeys initKiosk
          [Key.char 'a', Key.char 'b', Key.char 'c', Key.caps, Key.char 'd'])
        Field.badgeF = "abcD" := by
  refine ⟨fun s c => rfl, fun s c b => rfl, ?_, ?_, by decide, by decide⟩
  · intro s c
    by_cases hc : c.isAlpha = true <;> simp [foldChar, hc]
  · intro s c
    by_cases hc : c.isAlpha = true <;> simp [foldChar, hc]

/-- C4 fails on the code: in the symbol layer a CAPS-TOGGLE still flips
`caps_on`, so the state after the press differs from the state before. -/
theorem caps_toggle_symbols_counterexample :
    symKiosk.symbols_on = true ∧ pressKey symKiosk Key.caps ≠ symKiosk := by
  exact ⟨rfl, by decide⟩

/-- C4 amended: a CAPS-TOGGLE always flips `caps_on` — also while
`symbols_on` is true — and touches no field value and no other flag; while
`symbols_on` is true the caps state has no effect on the character a
literal key-press appends. -/
theorem caps_toggle_flips_spec :
    (∀ s : Kiosk, pressKey s Key.caps = { s with caps_on := !s.caps_on })
    ∧ (∀ s : Kiosk,
        (pressKey s Key.caps).name_input = s.name_input
        ∧ (pressKey s Key.caps).username_input = s.username_input
        ∧ (pressKey s Key.caps).badge_input = s.badge_input
        ∧ (pressKey s Key.caps).note_input = s.note_input
        ∧ (pressKey s Key.caps).symbols_on = s.symbols_on
        ∧ (pressKey s Key.caps).trigger_ring = s.trigger_ring)
    ∧ (∀ (s : Kiosk) (c : Char) (b : Bool),
        foldChar { s with symbols_on := true, caps_on := b } c = c) := by
  exact ⟨fun s => rfl, fun s => ⟨rfl, rfl, rfl, rfl, rfl, rfl⟩,
    fun s c b => rfl⟩

/-- C3 fails on the code: on-screen key-presses never touch the pending
auto-ring flag, so typing the fifth badge character leaves it false even
though the stripped badge length has reached 5. -/
theorem badge_keypress_no_autoring_counterexample :
    (runKeys initKiosk
        [Key.char '1', Key.char '2', Key.char '3', Key.char '4',
          Key.char '5']).badge_input = "12345"
    ∧ 5 ≤ (pyStrip (runKeys initKiosk
        [Key.char '1', Key.char '2', Key.char '3', Key.char '4',
          Key.char '5']).badge_input).length
    ∧ (runKeys initKiosk
        [Key.char '1', Key.char '2', Key.char '3', Key.char '4',
          Key.char '5']).trigger_ring = false := by
  refine ⟨by decide, by decide, by decide⟩

/-- C3 amended: the pending auto-ring flag is armed only by the badge
widget's scan-completed callback — which sets it when the stripped badge
length is at least 5 and leaves it unchanged otherwise — while key-presses
from the on-screen keyboard never modify it; scanning "1234" or "  1234 "
leaves it false, scanning "12345" or "  12345" sets it true. -/
theorem autoring_on_scan_only_spec :
    (∀ (s : Kiosk) (k : Key),
        (pressKey s k).trigger_ring = s.trigger_ring)
    ∧ (∀ s : Kiosk,
        (onBadgeScanned s).trigger_ring =
          if 5 ≤ (pyStrip s.badge_input).length then true
          else s.trigger_ring)
    ∧ (scanBadge initKiosk "1234").trigger_ring = false
    ∧ (scanBadge initKiosk "12345").trigger_ring = true
    ∧ (scanBadge initKiosk "  1234 ").trigger_ring = false
    ∧ (scanBadge initKiosk "  12345").trigger_ring = true := by
  refine ⟨?_, ?_, by decide, by decide, by decide, by decide⟩
  · intro s k
    cases k with
    | char c => exact (setField_preserves_flags s s.active_field _).2.2.1
    | back => exact (setField_preserves_flags s s.active_field _).2.2.1
    | clear => exact (setField_preserves_flags s s.active_field _).2.2.1
    | caps => rfl
    | sym => rfl
  · intro s
    by_cases h : 5 ≤ (pyStrip s.badge_input).length <;>
      simp [onBadgeScanned, h]

/-- Querying right after an append materialises exactly the old log plus the
appended row. -/
theorem loadLog_appendLog (s : LogState) (ev : RingEvent) :
    (loadLog (appendLog s ev)).1 = (loadLog s).1 ++ [ev] := rfl

/-- A query leaves the materialised value unchanged, and appends extend it on
the right, so membership in the query result survives any clear-free
operation. -/
theorem mem_loadLog_runLogOp (s : LogState) (ev : RingEvent) (op : LogOp)
    (h : ev ∈ (loadLog s).1) : ev ∈ (loadLog (runLogOp s op)).1 := by
  cases op with
  | query =>
    cases hc : s.cache with
    | none => simpa [runLogOp, loadLog, hc] using (by simpa [loadLog, hc] using h)
    | some c => simpa [runLogOp, loadLog, hc] using h
  | append e =>
    rw [runLogOp, loadLog_appendLog]
    exact List.mem_append_left _ h

/-- Membership in the query result survives any clear-free operation
sequence. -/
theorem mem_loadLog_runLogOps (ev : RingEvent) (ops : List LogOp) :
    ∀ s : LogState, ev ∈ (loadLog s).1 →
      ev ∈ (loadLog (runLogOps s ops)).1 := by
  induction ops with
  | nil => exact fun s h => h
  | cons op rest ih =>
    intro s h
    exact ih (runLogOp s op) (mem_loadLog_runLogOp s ev op h)

/-- Cache coherence holds initially and is preserved by every log
operation and by the admin reset. -/
theorem cacheOk_preserved :
    CacheOk initLog
    ∧ (∀ (s : LogState) (op : LogOp), CacheOk s → CacheOk (runLogOp s op))
    ∧ (∀ s : LogState, CacheOk s → CacheOk (clearLog s)) := by
  refine ⟨Or.inl rfl, ?_, ?_⟩
  · intro s op h
    cases op with
    | query =>
      cases hc : s.cache with
      | none => exact Or.inr (by simp [runLogOp, loadLog, hc])
      | some c => simpa [runLogOp, loadLog, hc] using h
    | append e => exact Or.inl rfl
  · intro s h
    cases hs : s.store with
    | none => simpa [clearLog, hs] using h
    | some v => exact Or.inl (by simp [clearLog, hs])

/-- C2: `append_log` clears the read cache before returning, so the appended
event is visible to the immediately following query and to every later
query with no intervening clear; and after the admin reset a query
materialises the empty log.  The cache-coherence hypothesis holds in every
state reachable through the log's own operations (`cacheOk_preserved`). -/
theorem append_visible_clear_empty (s : LogState) (ev : RingEvent)
    (h : CacheOk s) :
    (appendLog s ev).cache = none
    ∧ ev ∈ (loadLog (appendLog s ev)).1
    ∧ (∀ ops : List LogOp,
        ev ∈ (loadLog (runLogOps (appendLog s ev) ops)).1)
    ∧ (loadLog (clearLog s)).1 = [] := by
  have hmem : ev ∈ (loadLog (appendLog s ev)).1 := by
    rw [loadLog_appendLog]
    exact List.mem_append_right _ (List.mem_singleton.mpr rfl)
  refine ⟨rfl, hmem, fun ops => mem_loadLog_runLogOps ev ops _ hmem, ?_⟩
  cases hs : s.store with
  | some v => simp [clearLog, hs, loadLog, readStore]
  | none =>
    cases h with
    | inl hc => simp [clearLog, hs, loadLog, hc, readStore]
    | inr hc => simp [clearLog, hs, loadLog, hc, readStore]

/-- Witness for `append_visible_clear_empty` on a fresh deployment with a
concrete event and a concrete clear-free operation sequence. -/
theorem append_visible_clear_empty_witness :
    CacheOk initLog
    ∧ evSample ∈
        (loadLog (runLogOps (appendLog initLog evSample)
          [LogOp.query, LogOp.append evSample2, LogOp.query])).1
    ∧ (loadLog (clearLog initLog)).1 = [] :=
  ⟨Or.inl rfl,
    (append_visible_clear_empty initLog evSample (Or.inl rfl)).2.2.1
      [LogOp.query, LogOp.append evSample2, LogOp.query],
    (append_visible_clear_empty initLog evSample (Or.inl rfl)).2.2.2⟩

/-- C9: the uncached read path of `load_log` never propagates a failure: a
missing store file materialises as the empty log, and a store whose read
raises is caught and also materialises as the empty log. -/
theorem load_log_degraded_empty :
    readStore none = []
    ∧ (∀ msg : String, readStore (some (Except.error msg)) = [])
    ∧ (loadLog { store := none, cache := none }).1 = []
    ∧ (∀ msg : String,
        (loadLog { store := some (Except.error msg), cache := none }).1
          = []) := by
  exact ⟨rfl, fun _ => rfl, rfl, fun _ => rfl⟩

/-- C7: a requested ring is rejected with "no identifying data" exactly when
name, username and badge are all blank after stripping; otherwise, when the
configuration requires a photo and none is present, it is rejected with the
distinct "photo required" reason; and every rejection leaves the stored log
untouched. -/
theorem ring_validation_spec (ctx : RingCtx) (log : LogState)
    (h : shouldRing ctx = true) :
    ((processRing ctx log).1 = RingOutcome.rejectedNoId ↔
      (pyStrip ctx.name_input = "" ∧ pyStrip ctx.username_input = ""
        ∧ pyStrip ctx.badge_input = ""))
    ∧ ((missingAll ctx = false ∧ ctx.require_photo = true
        ∧ hasPhotoBytes ctx.last_photo_bytes = false) →
        (processRing ctx log).1 = RingOutcome.rejectedPhotoRequired)
    ∧ (((processRing ctx log).1 = RingOutcome.rejectedNoId
        ∨ (processRing ctx log).1 = RingOutcome.rejectedPhotoRequired) →
        (processRing ctx log).2.1 = log) := by
  have hmiss : missingAll ctx = true ↔
      (pyStrip ctx.name_input = "" ∧ pyStrip ctx.username_input = ""
        ∧ pyStrip ctx.badge_input = "") := by
    simp [missingAll, Bool.and_eq_true, and_assoc]
  cases hm : missingAll ctx with
  | true =>
    refine ⟨?_, ?_, ?_⟩
    · simpa [processRing, h, hm] using hmiss.mp hm
    · intro hcontra
      exact Bool.noConfusion hcontra.1
    · intro _
      simp [processRing, h, hm]
  | false =>
    have hnot : ¬(pyStrip ctx.name_input = "" ∧ pyStrip ctx.username_input = ""
        ∧ pyStrip ctx.badge_input = "") := by
      intro htriple
      rw [hmiss.mpr htriple] at hm
      cases hm
    cases hp : (ctx.require_photo && !hasPhotoBytes ctx.last_photo_bytes) with
    | true =>
      refine ⟨?_, fun _ => by simp [processRing, h, hm, hp], ?_⟩
      · simp only [processRing, h, hm, hp]
        simpa using hnot
      · intro _
        simp [processRing, h, hm, hp]
    | false =>
      refine ⟨?_, ?_, ?_⟩
      · simp only [processRing, h, hm, hp]
        simpa using hnot
      · rintro ⟨-, hrp, hnp⟩
        rw [hrp, hnp] at hp
        cases hp
      · rintro (hout | hout) <;> (revert hout) <;>
          simp [processRing, h, hm, hp]

/-- Witness for `ring_validation_spec`: a manual ring with every identifying
field blank is rejected as "no identifying data". -/
theorem ring_validation_spec_witness :
    shouldRing ctxEmptyRing = true
    ∧ (processRing ctxEmptyRing initLog).1 = RingOutcome.rejectedNoId
    ∧ (processRing ctxEmptyRing initLog).2.1 = initLog :=
  ⟨rfl,
    (ring_validation_spec ctxEmptyRing initLog rfl).1.mpr
      ⟨rfl, rfl, rfl⟩,
    (ring_validation_spec ctxEmptyRing initLog rfl).2.2
      (Or.inl ((ring_validation_spec ctxEmptyRing initLog rfl).1.mpr
        ⟨rfl, rfl, rfl⟩))⟩

/-- A requested ring that passes both validation checks takes exactly the
success branch: persisted outcome, `append_log`, and `trigger_ring`
cleared. -/
theorem processRing_persists (ctx : RingCtx) (log : LogState)
    (h : shouldRing ctx = true) (hid : missingAll ctx = false)
    (hcond : (ctx.require_photo && !hasPhotoBytes ctx.last_photo_bytes)
      = false) :
    processRing ctx log =
      (RingOutcome.persisted (mkEvent ctx) (photoWarning ctx),
        appendLog log (mkEvent ctx), false) := by
  simp [processRing, h, hid, hcond]

/-- C8: when a requested ring passes validation and carries photo bytes whose
file write fails, the ring still succeeds — the event is persisted through
`append_log` with an empty photo reference and the warning flag set — and
toggling the write success never changes whether the attempt persists. -/
theorem photo_failure_nonfatal_spec (ctx : RingCtx) (log : LogState)
    (h : shouldRing ctx = true) (hid : missingAll ctx = false)
    (hp : hasPhotoBytes ctx.last_photo_bytes = true)
    (hw : ctx.photo_write_ok = false) :
    (processRing ctx log).1 = RingOutcome.persisted (mkEvent ctx) true
    ∧ (mkEvent ctx).photo = ""
    ∧ (processRing ctx log).2.1 = appendLog log (mkEvent ctx)
    ∧ (∀ b : Bool,
        isPersisted (processRing { ctx with photo_write_ok := b } log).1
          = true) := by
  have hcond :
      (ctx.require_photo && !hasPhotoBytes ctx.last_photo_bytes) = false := by
    simp [hp]
  have hwarn : photoWarning ctx = true := by
    simp [photoWarning, hp, hw]
  refine ⟨?_, ?_, ?_, ?_⟩
  · rw [processRing_persists ctx log h hid hcond, hwarn]
  · simp [mkEvent, photoPath, hp, hw]
  · rw [processRing_persists ctx log h hid hcond]
  · intro b
    have h2 : shouldRing { ctx with photo_write_ok := b } = true := h
    have hid2 : missingAll { ctx with photo_write_ok := b } = false := hid
    have hcond2 :
        (({ ctx with photo_write_ok := b } : RingCtx).require_photo
          && !hasPhotoBytes
              ({ ctx with photo_write_ok := b } : RingCtx).last_photo_bytes)
          = false := hcond
    rw [processRing_persists { ctx with photo_write_ok := b } log h2 hid2
      hcond2]
    rfl

/-- Witness for `photo_failure_nonfatal_spec`: a badge-only ring with photo
bytes whose write fails persists with an empty photo reference and the
warning set. -/
theorem photo_failure_nonfatal_witness :
    shouldRing ctxPhotoFail = true
    ∧ missingAll ctxPhotoFail = false
    ∧ hasPhotoBytes ctxPhotoFail.last_photo_bytes = true
    ∧ ctxPhotoFail.photo_write_ok = false
    ∧ (processRing ctxPhotoFail initLog).1 =
        RingOutcome.persisted (mkEvent ctxPhotoFail) true
    ∧ (mkEvent ctxPhotoFail).photo = "" :=
  ⟨rfl, by decide, rfl, rfl,
    (photo_failure_nonfatal_spec ctxPhotoFail initLog rfl (by decide) rfl
      rfl).1,
    (photo_failure_nonfatal_spec ctxPhotoFail initLog rfl (by decide) rfl
      rfl).2.1⟩

/-- C10: the ring handler writes `trigger_ring` back as false only on the
Persisted path and leaves it untouched on every other outcome; in
particular, a scan that armed the auto-ring followed by clearing the badge
yields a rejected attempt that leaves the auto-ring armed. -/
theorem trigger_cleared_only_on_persist :
    (∀ (ctx : RingCtx) (log : LogState),
        (processRing ctx log).2.2 =
          if isPersisted (processRing ctx log).1 then false
          else ctx.trigger_ring)
    ∧ kioskScanned.trigger_ring = true
    ∧ kioskCleared.badge_input = ""
    ∧ kioskCleared.trigger_ring = true
    ∧ (processRing (ctxOfKiosk kioskCleared) initLog).1 =
        RingOutcome.rejectedNoId
    ∧ (processRing (ctxOfKiosk kioskCleared) initLog).2.2 = true := by
  refine ⟨?_, by decide, by decide, by decide, by decide, by decide⟩
  intro ctx log
  by_cases h1 : shouldRing ctx = true
  · cases h2 : missingAll ctx with
    | true => simp [processRing, h1, h2, isPersisted]
    | false =>
      cases h3 : (ctx.require_photo && !hasPhotoBytes ctx.last_photo_bytes)
        with
      | true => simp [processRing, h1, h2, h3, isPersisted]
      | false => simp [processRing, h1, h2, h3, isPersisted]
  · simp [processRing, h1, isPersisted]

/-- C6 fails on the code in a session never visited by an administrator: the
effective shift is frozen at session initialisation, so a ring at 17:45
persists shift "Day" (from the 16:00 session start) although no override
was pinned and `detect_shift` at the ring instant says "Night". -/
theorem shift_stale_counterexample :
    ctxStaleShift.effective_shift = initEffectiveShift ⟨16, 0⟩
    ∧ sidebarShift false ShiftMode.auto ⟨17, 0⟩ (initEffectiveShift ⟨16, 0⟩)
        = initEffectiveShift ⟨16, 0⟩
    ∧ (processRing ctxStaleShift initLog).1 =
        RingOutcome.persisted (mkEvent ctxStaleShift) false
    ∧ (mkEvent ctxStaleShift).shift = "Day"
    ∧ detect_shift ctxStaleShift.now = "Night" := by
  refine ⟨rfl, rfl, by decide, by decide, by decide⟩

/-- C6 amended: the persisted shift is the session's stored effective-shift
value — the administrator's pinned "Day"/"Night" override when set,
`detect_shift` of the sidebar-render instant when an administrator is
signed in with mode Auto, and otherwise `detect_shift` of the session's
first render — which need not equal `detect_shift` at the ring instant. -/
theorem shift_from_session_effective_shift :
    (∀ ctx : RingCtx,
        (mkEvent ctx).shift = ctx.effective_shift.getD (detect_shift ctx.now))
    ∧ (∀ (ctx : RingCtx) (log : LogState),
        (processRing ctx log).1 = RingOutcome.noRing
        ∨ (processRing ctx log).1 = RingOutcome.rejectedNoId
        ∨ (processRing ctx log).1 = RingOutcome.rejectedPhotoRequired
        ∨ (processRing ctx log).1 =
            RingOutcome.persisted (mkEvent ctx) (photoWarning ctx))
    ∧ (∀ t0 : Tod, initEffectiveShift t0 = some (detect_shift t0))
    ∧ (∀ (t : Tod) (prev : Option String),
        sidebarShift true ShiftMode.auto t prev = some (detect_shift t))
    ∧ (∀ (t : Tod) (prev : Option String),
        sidebarShift true ShiftMode.day t prev = some "Day")
    ∧ (∀ (t : Tod) (prev : Option String),
        sidebarShift true ShiftMode.night t prev = some "Night")
    ∧ (∀ (m : ShiftMode) (t : Tod) (prev : Option String),
        sidebarShift false m t prev = prev) := by
  refine ⟨fun ctx => rfl, ?_, fun t0 => rfl, fun t prev => rfl,
    fun t prev => rfl, fun t prev => rfl, fun m t prev => rfl⟩
  intro ctx log
  by_cases h1 : shouldRing ctx = true
  · cases h2 : missingAll ctx with
    | true =>
      exact Or.inr (Or.inl (by simp [processRing, h1, h2]))
    | false =>
      cases h3 : (ctx.require_photo && !hasPhotoBytes ctx.last_photo_bytes)
        with
      | true =>
        exact Or.inr (Or.inr (Or.inl (by simp [processRing, h1, h2, h3])))
      | false =>
        exact Or.inr (Or.inr (Or.inr (by simp [processRing, h1, h2, h3])))
  · exact Or.inl (by simp [processRing, h1])

end Doorbell
